import Mathlib

/-!
# Verification of the world-state-art generative pipeline

Shallow embedding of `src/script.js`.  Numbers are modelled as rationals
(`ℚ`); the third-party libraries `Math.seedrandom` and `SimplexNoise` are
not part of the repository, so they are modelled as abstract deterministic
parameters: a seeded PRNG is a function `String → ℕ → ℚ` (seed string to
the stream of draws, indexed by draw count) and a constructed noise field
is a function `ℚ → ℚ → ℚ`.  JavaScript array indexing out of bounds yields
`undefined`; we model fallible indexing with `Option`.
-/

namespace WorldStateArt

/-- The three fixed colour pools of `POOL` (src/script.js lines 22-26). -/
def darkPool : List String :=
  ["#2C3E50", "#1A1A2E", "#4A148C", "#1B4F72", "#641E16", "#145A32", "#212F3C", "#512E5F"]

/-- `POOL.vibrant`. -/
def vibrantPool : List String :=
  ["#FF5733", "#C70039", "#FFC300", "#900C3F", "#2ECC71", "#E74C3C", "#8E44AD", "#D35400", "#F39C12", "#1ABC9C"]

/-- `POOL.light`. -/
def lightPool : List String :=
  ["#FDFEFE", "#F4ECF7", "#FEF9E7", "#D5F5E3", "#FAD7A0", "#E8F8F5", "#D2B4DE", "#A9DFBF"]

/-- One step of JavaScript `parseInt(s, 16)`: greedy parse of leading hex
digits.  Returns `none` on a non-hex character. -/
def hexDigitVal (c : Char) : Option ℕ :=
  if ('0' ≤ c ∧ c ≤ '9') then some (c.toNat - '0'.toNat)
  else if ('a' ≤ c ∧ c ≤ 'f') then some (c.toNat - 'a'.toNat + 10)
  else if ('A' ≤ c ∧ c ≤ 'F') then some (c.toNat - 'A'.toNat + 10)
  else none

/-- Greedy hex-digit accumulator: parses digits until the first non-digit,
like `parseInt(·, 16)` on an already-trimmed string.  A string with no
leading hex digit gives `parseInt = NaN` in JS, and every later bitwise
operation coerces that `NaN` to `0`; returning the accumulator `0` gives
the same final channels, so `0` is the faithful result here. -/
def parseHexDigits : List Char → ℕ → ℕ
  | [], acc => acc
  | c :: rest, acc =>
      match hexDigitVal c with
      | some v => parseHexDigits rest (acc * 16 + v)
      | none => acc

/-- `parseInt(s, 16)` as used on the pool constants. -/
def parseHexNat (s : String) : ℕ :=
  parseHexDigits s.data 0

/-- `hexToRgb` (src/script.js lines 28-31): strip `#`, parse as hex, then
extract the three bytes with shifts and masks. -/
def hexToRgb (hex : String) : ℕ × ℕ × ℕ :=
  let bigint := parseHexNat (hex.replace "#" "")
  ((bigint >>> 16) &&& 255, (bigint >>> 8) &&& 255, bigint &&& 255)

/-- `pickFrom(arr)` = `arr[Math.floor(rng() * arr.length)]`
(src/script.js line 36).  JavaScript yields `undefined` when the computed
index is out of bounds, modelled as `none`. -/
def pickFrom (arr : List String) (u : ℚ) : Option String :=
  let i : ℤ := ⌊u * (arr.length : ℚ)⌋
  if h : 0 ≤ i ∧ i.toNat < arr.length then some (arr.get ⟨i.toNat, h.2⟩)
  else none

/-- `draftColors` (src/script.js lines 33-55).  The PRNG created from
`seedStr + "_COLOR_DRAFT"` is a stateful stream; we thread the draw
counter `k` explicitly: each call to `pickFrom` consumes exactly one draw.
`seedrandom` is the abstract seeded PRNG library function. -/
def draftColors (seedrandom : String → ℕ → ℚ)
    (season _sentiment entropy : ℚ) (seedStr : String) :
    Option (List (ℕ × ℕ × ℕ)) :=
  let rng := seedrandom (seedStr ++ "_COLOR_DRAFT")
  let pick := fun (arr : List String) (k : ℕ) =>
    (pickFrom arr (rng k)).map (fun c => (c, k + 1))
  do
    let (c0, k0) ← if season > 0.6 then pick darkPool 0 else pick lightPool 0
    let (c1, k1) ← pick vibrantPool k0
    let (c2, k2) ← if season > 0.6 then pick lightPool k1 else pick darkPool k1
    let (c3, k3) ← if entropy > 0.5 then pick vibrantPool k2 else pick lightPool k2
    let (c4, _k4) ← if entropy > 0.5 then pick vibrantPool k3 else pick darkPool k3
    pure ([c0, c1, c2, c3, c4].map hexToRgb)

/-- `CANVAS_WIDTH` (src/script.js line 18). -/
def CANVAS_WIDTH : ℕ := 1240

/-- `CANVAS_HEIGHT` (src/script.js line 19). -/
def CANVAS_HEIGHT : ℕ := 1754

/-- `CHUNK_SIZE` (src/script.js line 126). -/
def CHUNK_SIZE : ℕ := 150

/-- The input record `data` consumed by `generateArt`: a timestamp string
and five normalized signals. -/
structure WorldParameters where
  timestamp : String
  p_season : ℚ
  p_sentiment : ℚ
  p_entropy : ℚ
  p_humanity : ℚ
  p_atmosphere : ℚ

/-- `seedString = data.timestamp + "_RETRO_V7"` (src/script.js line 109). -/
def seedString (data : WorldParameters) : String :=
  data.timestamp ++ "_RETRO_V7"

/-- `zoom = 0.002 + (data.p_humanity * 0.002)` (src/script.js line 124). -/
def zoom (p_humanity : ℚ) : ℚ := 0.002 + p_humanity * 0.002

/-- `distortion = 100 + (data.p_entropy * 200)` (src/script.js line 125). -/
def distortion (p_entropy : ℚ) : ℚ := 100 + p_entropy * 200

/-- `grainAmount = 0.1 + (data.p_atmosphere * 0.1)` (src/script.js line 136). -/
def grainAmount (p_atmosphere : ℚ) : ℚ := 0.1 + p_atmosphere * 0.1

/-- `grain = (myRNG() - 0.5) * grainAmount` (src/script.js line 137),
with `u` the PRNG draw. -/
def grain (u gA : ℚ) : ℚ := (u - 0.5) * gA

/-- The warped-noise scalar of one pixel (src/script.js lines 130-134):
two warp samples, displacement by `warp * distortion`, a third sample at
the displaced rescaled position, remapped to [0,1] via `(v+1)/2`. -/
def pixelValue (noise : ℚ → ℚ → ℚ) (z dist x y : ℚ) : ℚ :=
  let xWarp := noise (x * z) (y * z)
  let yWarp := noise ((x + 1000) * z) ((y + 1000) * z)
  let finalX := x + xWarp * dist
  let finalY := y + yWarp * dist
  (noise (finalX * z) (finalY * z) + 1) / 2

/-- The same per-pixel procedure as the specification document words it:
the second warp sample taken at `(x*zoom + offset, y*zoom + offset)` for
the fixed offset constant 1000. -/
def pixelValueSpecWorded (noise : ℚ → ℚ → ℚ) (z dist x y : ℚ) : ℚ :=
  let xWarp := noise (x * z) (y * z)
  let yWarp := noise (x * z + 1000) (y * z + 1000)
  let finalX := x + xWarp * dist
  let finalY := y + yWarp * dist
  (noise (finalX * z) (finalY * z) + 1) / 2

/-- The amended wording: the offset 1000 is added to the pixel coordinate
before scaling, so the second warp sample sits at
`(x*zoom + 1000*zoom, y*zoom + 1000*zoom)` in field coordinates. -/
def pixelValueOffsetScaled (noise : ℚ → ℚ → ℚ) (z dist x y : ℚ) : ℚ :=
  let xWarp := noise (x * z) (y * z)
  let yWarp := noise (x * z + 1000 * z) (y * z + 1000 * z)
  let finalX := x + xWarp * dist
  let finalY := y + yWarp * dist
  (noise (finalX * z) (finalY * z) + 1) / 2

/-- Threshold quantization of the dithered value (src/script.js
lines 140-145). -/
def quantize (d : ℚ) : ℤ :=
  if d < 0.30 then 0
  else if d < 0.50 then 1
  else if d < 0.70 then 2
  else if d < 0.85 then 3
  else 4

/-- The defensive clamp `if (colIndex < 0) colIndex = 0; if (colIndex > 4)
colIndex = 4` (src/script.js line 147). -/
def clampIndex (i : ℤ) : ℤ :=
  let i1 := if i < 0 then 0 else i
  if i1 > 4 then 4 else i1

/-- Round to the nearest integer, ties to even — the rounding mode
JavaScript applies when storing a Number into a `Uint8ClampedArray`. -/
def roundHalfEven (q : ℚ) : ℤ :=
  let f := ⌊q⌋
  let frac := q - f
  if frac < 1/2 then f
  else if 1/2 < frac then f + 1
  else if f % 2 = 0 then f else f + 1

/-- `Uint8ClampedArray` store semantics: clamp to [0,255] (saturating,
never wrapping), then round half to even.  This is how the channel values
computed at src/script.js lines 150-155 reach the raster bytes. -/
def clampByte (q : ℚ) : ℕ :=
  if q ≤ 0 then 0
  else if 255 ≤ q then 255
  else (roundHalfEven q).toNat

/-- One pixel of the synthesis loop body (src/script.js lines 130-155):
the four bytes `[r, g, b, 255]` written at offset `(y*W + x) * 4`.  The
pixel-grain stream is consumed once per pixel in row-major order, so pixel
`(x,y)` receives draw number `y*W + x`.  `colors[colIndex]` is always
in bounds because `clampIndex` lands in [0,4] and the palette has 5
entries; `getD` supplies an unreachable default. -/
def pixelQuad (noise : ℚ → ℚ → ℚ) (stream : ℕ → ℚ) (data : WorldParameters)
    (colors : List (ℕ × ℕ × ℕ)) (W x y : ℕ) : List ℕ :=
  let value := pixelValue noise (zoom data.p_humanity) (distortion data.p_entropy) x y
  let g := grain (stream (y * W + x)) (grainAmount data.p_atmosphere)
  let ditheredValue := value + g
  let colIndex := clampIndex (quantize ditheredValue)
  let rgb := colors.getD colIndex.toNat (0, 0, 0)
  [clampByte ((rgb.1 : ℚ) + g * 30), clampByte ((rgb.2.1 : ℚ) + g * 30),
    clampByte ((rgb.2.2 : ℚ) + g * 30), 255]

/-- One row `y` of the inner loop over `x` (src/script.js line 129). -/
def renderRow (noise : ℚ → ℚ → ℚ) (stream : ℕ → ℚ) (data : WorldParameters)
    (colors : List (ℕ × ℕ × ℕ)) (W y : ℕ) : List ℕ :=
  (List.range W).flatMap (fun x => pixelQuad noise stream data colors W x y)

/-- The full double loop (src/script.js line 128): the raster bytes in
their write order, which is exactly row-major `(y*W + x) * 4` order. -/
def synthesizeRaster (noise : ℚ → ℚ → ℚ) (stream : ℕ → ℚ)
    (data : WorldParameters) (colors : List (ℕ × ℕ × ℕ)) (W H : ℕ) : List ℕ :=
  (List.range H).flatMap (renderRow noise stream data colors W)

/-- The row loop as the cooperative scheduler runs it (src/script.js
lines 128-159): after each row with `y % CHUNK_SIZE === 0` the loop
yields to the host event loop; `yields` counts those suspension points.
Returns the accumulated raster together with the yield count. -/
def chunkedRows (row : ℕ → List ℕ) : List ℕ → List ℕ → ℕ → List ℕ × ℕ
  | [], acc, yields => (acc, yields)
  | y :: rest, acc, yields =>
      let acc2 := acc ++ row y
      if y % CHUNK_SIZE = 0 then chunkedRows row rest acc2 (yields + 1)
      else chunkedRows row rest acc2 yields

/-- The chunked synthesis: rows 0..H-1 processed through the yielding
scheduler. -/
def synthesizeChunked (noise : ℚ → ℚ → ℚ) (stream : ℕ → ℚ)
    (data : WorldParameters) (colors : List (ℕ × ℕ × ℕ)) (W H : ℕ) :
    List ℕ × ℕ :=
  chunkedRows (renderRow noise stream data colors W) (List.range H) [] 0

/-- Ambient host state that a browser script could in principle read:
wall-clock time, how many generations ran before, and the locale used by
`toLocaleDateString`.  `generateArt` receives it explicitly so that the
raster's independence from it is a theorem rather than an assumption. -/
structure HostEnv where
  now : ℕ
  invocationCount : ℕ
  locale : String

/-- `generateArt(data)` (src/script.js lines 108-163): derive the seed
string, seed `myRNG`, build the simplex field from `myRNG` (the
constructor consumes `simplexInitDraws` draws, so pixel draw `k` is raw
draw `simplexInitDraws + k`), format the timestamp for the UI label
(the only environment-dependent output), draft the palette from the
dedicated colour stream, and synthesize the raster.  Returns the UI label
together with the raster bytes. -/
def generateArt (seedrandom : String → ℕ → ℚ)
    (simplexNoiseOf : (ℕ → ℚ) → ℚ → ℚ → ℚ) (simplexInitDraws : ℕ)
    (formatTimestamp : String → String → String) (env : HostEnv)
    (data : WorldParameters) (W H : ℕ) : String × Option (List ℕ) :=
  let seedStr := seedString data
  let myRNG := seedrandom seedStr
  let simplex := simplexNoiseOf myRNG
  let pixelStream := fun k => myRNG (simplexInitDraws + k)
  let display := formatTimestamp env.locale data.timestamp
  let raster :=
    (draftColors seedrandom data.p_season data.p_sentiment data.p_entropy seedStr).map
      (fun colors => synthesizeRaster simplex pixelStream data colors W H)
  (display, raster)

/-- Spec-side description of one pool draw: the element at index
`floor(u * pool.length)`, total via a default that is never reached for
`u ∈ [0,1)` and a nonempty pool. -/
def poolPick (arr : List String) (u : ℚ) : String :=
  arr.getD (⌊u * (arr.length : ℚ)⌋).toNat ""

/-- A draw with a unit-interval PRNG value from a nonempty pool is always
in bounds and equals the `poolPick` normal form. -/
theorem pickFrom_of_unit (arr : List String) (u : ℚ) (hne : arr ≠ [])
    (h0 : 0 ≤ u) (h1 : u < 1) : pickFrom arr u = some (poolPick arr u) := by
  have hlen : 0 < arr.length := List.length_pos.mpr hne
  have hlenQ : (0 : ℚ) < (arr.length : ℚ) := by exact_mod_cast hlen
  have hi0 : 0 ≤ ⌊u * (arr.length : ℚ)⌋ :=
    Int.floor_nonneg.mpr (mul_nonneg h0 hlenQ.le)
  have hiN : ⌊u * (arr.length : ℚ)⌋ < (arr.length : ℤ) := by
    apply Int.floor_lt.mpr
    push_cast
    exact mul_lt_of_lt_one_left hlenQ h1
  have hiNat : (⌊u * (arr.length : ℚ)⌋).toNat < arr.length := by omega
  unfold pickFrom
  rw [dif_pos ⟨hi0, hiNat⟩]
  unfold poolPick
  rw [List.getD_eq_getElem?_getD, List.getElem?_eq_getElem hiNat]
  simp [List.get_eq_getElem]

/-- A constant-zero PRNG, used to instantiate abstract streams on
concrete inputs. -/
def constZeroStream : String → ℕ → ℚ := fun _ _ => 0

/-- A constant-zero noise field, used to instantiate the abstract simplex
field on concrete inputs. -/
def zeroNoise : ℚ → ℚ → ℚ := fun _ _ => 0

/-- A noise field used to separate the two candidate warp-offset
formulas; its range is `{0, 1} ⊆ [-1, 1]`. -/
def sepNoise : ℚ → ℚ → ℚ := fun a b => if a = 2 ∨ b = 1/5 then 1 else 0

/-- C1: for identical WorldParameters and identical output dimensions,
two invocations of the full pipeline — under any ambient host state
(wall-clock `now`, invocation count, locale) — produce byte-identical
rasters: the raster component of `generateArt` does not depend on the
host environment at all, only the UI label does. -/
theorem generateArt_deterministic (seedrandom : String → ℕ → ℚ)
    (simplexNoiseOf : (ℕ → ℚ) → ℚ → ℚ → ℚ) (simplexInitDraws : ℕ)
    (formatTimestamp : String → String → String) (env1 env2 : HostEnv)
    (data : WorldParameters) (W H : ℕ) :
    (generateArt seedrandom simplexNoiseOf simplexInitDraws formatTimestamp
        env1 data W H).2 =
      (generateArt seedrandom simplexNoiseOf simplexInitDraws formatTimestamp
        env2 data W H).2 := rfl

/-- C2, counterexample: the claimed formula (second warp sample at
`(x*zoom + 1000, y*zoom + 1000)`) disagrees with the code (which samples
at `((x+1000)*zoom, (y+1000)*zoom)`) already at pixel (0,0) with the
reachable run parameters `zoom = 0.002`, `distortion = 100`. -/
theorem warp_offset_claim_counterexample :
    pixelValueSpecWorded sepNoise 0.002 100 0 0 ≠
      pixelValue sepNoise 0.002 100 0 0 := by
  norm_num [pixelValueSpecWorded, pixelValue, sepNoise]

/-- C2, amended: the per-pixel procedure is exactly as claimed except
that the second warp sample sits at `(x*zoom + 1000*zoom, y*zoom +
1000*zoom)` — the offset 1000 is added to the pixel coordinate before the
zoom rescaling, for every noise field, zoom, distortion and pixel. -/
theorem warp_offset_scaled_amended (noise : ℚ → ℚ → ℚ) (z dist x y : ℚ) :
    pixelValue noise z dist x y = pixelValueOffsetScaled noise z dist x y := by
  simp only [pixelValue, pixelValueOffsetScaled, add_mul]

/-- C3: exact range scaling of the derived run parameters at the
endpoints, and the per-pixel grain draw `(u - 0.5) * grainAmount` lies in
`[-grainAmount/2, grainAmount/2)` whenever the PRNG draw `u` is in
`[0,1)` and `p_atmosphere` is nonnegative. -/
theorem run_parameter_scaling :
    (zoom 0 = 0.002 ∧ zoom 1 = 0.004) ∧
    (distortion 0 = 100 ∧ distortion 1 = 300) ∧
    (grainAmount 0 = 0.1 ∧ grainAmount 1 = 0.2) ∧
    (∀ pa u : ℚ, 0 ≤ pa → 0 ≤ u → u < 1 →
      -(grainAmount pa / 2) ≤ grain u (grainAmount pa) ∧
        grain u (grainAmount pa) < grainAmount pa / 2) := by
  refine ⟨⟨by norm_num [zoom], by norm_num [zoom]⟩,
    ⟨by norm_num [distortion], by norm_num [distortion]⟩,
    ⟨by norm_num [grainAmount], by norm_num [grainAmount]⟩, ?_⟩
  intro pa u hpa hu0 hu1
  have hgA : 0 < grainAmount pa := by unfold grainAmount; nlinarith
  constructor
  · unfold grain
    nlinarith
  · unfold grain
    nlinarith

/-- C3 witness at `p_atmosphere = 0`, `u = 0`. -/
theorem run_parameter_scaling_witness :
    -(grainAmount 0 / 2) ≤ grain 0 (grainAmount 0) ∧
      grain 0 (grainAmount 0) < grainAmount 0 / 2 :=
  run_parameter_scaling.2.2.2 0 0 le_rfl le_rfl zero_lt_one

/-- C4: the threshold quantization always lands in [0,4], is monotone in
the dithered value, attains every bucket 0..4 at some point of [0,1], and
the defensive clamp is the identity on its output. -/
theorem quantize_bucket_props (d d1 d2 : ℚ) :
    (0 ≤ quantize d ∧ quantize d ≤ 4) ∧
    (d1 ≤ d2 → quantize d1 ≤ quantize d2) ∧
    clampIndex (quantize d) = quantize d ∧
    (quantize 0 = 0 ∧ quantize (2/5) = 1 ∧ quantize (3/5) = 2 ∧
      quantize (4/5) = 3 ∧ quantize (9/10) = 4) := by
  have hb : ∀ e : ℚ, 0 ≤ quantize e ∧ quantize e ≤ 4 := by
    intro e
    unfold quantize
    split_ifs <;> omega
  refine ⟨hb d, ?_, ?_, ?_, ?_, ?_, ?_, ?_⟩
  · intro h12
    unfold quantize
    split_ifs <;> first | omega | linarith
  · have := hb d
    unfold clampIndex
    dsimp only
    split_ifs <;> omega
  all_goals norm_num [quantize]

/-- C4 witness: monotonicity applied at the concrete pair `0 ≤ 1`. -/
theorem quantize_bucket_props_witness : quantize 0 ≤ quantize 1 :=
  (quantize_bucket_props 0 0 1).2.1 zero_le_one

/-- C7: the sentiment signal has no influence on colour drafting — for
any two sentiment values and otherwise identical inputs, `draftColors`
returns the same palette. -/
theorem draftColors_sentiment_irrelevant (seedrandom : String → ℕ → ℚ)
    (season s1 s2 entropy : ℚ) (seedStr : String) :
    draftColors seedrandom season s1 entropy seedStr =
      draftColors seedrandom season s2 entropy seedStr := rfl

/-- The yielding row scheduler appends exactly the rows' bytes, whatever
the yield pattern does to the yield counter. -/
theorem chunkedRows_fst (row : ℕ → List ℕ) (rows : List ℕ) (acc : List ℕ)
    (yields : ℕ) :
    (chunkedRows row rows acc yields).1 = acc ++ rows.flatMap row := by
  induction rows generalizing acc yields with
  | nil => simp [chunkedRows]
  | cons y rest ih =>
      unfold chunkedRows
      by_cases hy : y % CHUNK_SIZE = 0
      · simp [hy, ih, List.flatMap_cons, List.append_assoc]
      · simp [hy, ih, List.flatMap_cons, List.append_assoc]

/-- C8: the row-chunked scheduling with periodic yields produces exactly
the raster of the plain, yield-free pixel loop — yielding is invisible in
the bytes. -/
theorem chunked_render_equiv (noise : ℚ → ℚ → ℚ) (stream : ℕ → ℚ)
    (data : WorldParameters) (colors : List (ℕ × ℕ × ℕ)) (W H : ℕ) :
    (synthesizeChunked noise stream data colors W H).1 =
      synthesizeRaster noise stream data colors W H := by
  unfold synthesizeChunked synthesizeRaster
  rw [chunkedRows_fst]
  simp

/-- Closed form of `draftColors` when every colour-stream draw lies in
`[0,1)`: the five slots come from the claimed pools in the claimed order,
slot `i` consuming exactly draw number `i`. -/
theorem draftColors_normal_form (seedrandom : String → ℕ → ℚ)
    (season sentiment entropy : ℚ) (seedStr : String)
    (h : ∀ k, 0 ≤ seedrandom (seedStr ++ "_COLOR_DRAFT") k ∧
      seedrandom (seedStr ++ "_COLOR_DRAFT") k < 1) :
    draftColors seedrandom season sentiment entropy seedStr =
      some
        ([poolPick (if season > 0.6 then darkPool else lightPool)
            (seedrandom (seedStr ++ "_COLOR_DRAFT") 0),
          poolPick vibrantPool (seedrandom (seedStr ++ "_COLOR_DRAFT") 1),
          poolPick (if season > 0.6 then lightPool else darkPool)
            (seedrandom (seedStr ++ "_COLOR_DRAFT") 2),
          poolPick (if entropy > 0.5 then vibrantPool else lightPool)
            (seedrandom (seedStr ++ "_COLOR_DRAFT") 3),
          poolPick (if entropy > 0.5 then vibrantPool else darkPool)
            (seedrandom (seedStr ++ "_COLOR_DRAFT") 4)].map hexToRgb) := by
  have hp : ∀ (arr : List String), arr ≠ [] → ∀ k,
      pickFrom arr (seedrandom (seedStr ++ "_COLOR_DRAFT") k) =
        some (poolPick arr (seedrandom (seedStr ++ "_COLOR_DRAFT") k)) :=
    fun arr hne k => pickFrom_of_unit arr _ hne (h k).1 (h k).2
  have hd : darkPool ≠ [] := List.cons_ne_nil _ _
  have hv : vibrantPool ≠ [] := List.cons_ne_nil _ _
  have hl : lightPool ≠ [] := List.cons_ne_nil _ _
  unfold draftColors
  by_cases hs : season > 0.6 <;> by_cases he : entropy > 0.5 <;>
    simp [hs, he, hp darkPool hd, hp vibrantPool hv, hp lightPool hl]

/-- C5: `draftColors` fills the five palette slots in exactly the claimed
order — slot 0 from dark if `season > 0.6` else light, slot 1 from
vibrant, slot 2 from the inverse pool of slot 0, slots 3 and 4 both from
vibrant when `entropy > 0.5` and otherwise one light then one dark — each
slot consuming exactly one PRNG draw via `pool[floor(u * pool.length)]`,
for every season, sentiment, entropy, seed and PRNG whose draws lie in
`[0,1)`. -/
theorem draftColors_selection_order (seedrandom : String → ℕ → ℚ)
    (season sentiment entropy : ℚ) (seedStr : String)
    (h : ∀ k, 0 ≤ seedrandom (seedStr ++ "_COLOR_DRAFT") k ∧
      seedrandom (seedStr ++ "_COLOR_DRAFT") k < 1) :
    draftColors seedrandom season sentiment entropy seedStr =
      some
        ([poolPick (if season > 0.6 then darkPool else lightPool)
            (seedrandom (seedStr ++ "_COLOR_DRAFT") 0),
          poolPick vibrantPool (seedrandom (seedStr ++ "_COLOR_DRAFT") 1),
          poolPick (if season > 0.6 then lightPool else darkPool)
            (seedrandom (seedStr ++ "_COLOR_DRAFT") 2),
          poolPick (if entropy > 0.5 then vibrantPool else lightPool)
            (seedrandom (seedStr ++ "_COLOR_DRAFT") 3),
          poolPick (if entropy > 0.5 then vibrantPool else darkPool)
            (seedrandom (seedStr ++ "_COLOR_DRAFT") 4)].map hexToRgb) :=
  draftColors_normal_form seedrandom season sentiment entropy seedStr h

/-- C5 witness at the constant-zero stream, `season = 0.8`,
`entropy = 0.7`. -/
theorem draftColors_selection_order_witness :
    draftColors constZeroStream 0.8 0.5 0.7 "S" =
      some
        ([poolPick (if (0.8 : ℚ) > 0.6 then darkPool else lightPool)
            (constZeroStream ("S" ++ "_COLOR_DRAFT") 0),
          poolPick vibrantPool (constZeroStream ("S" ++ "_COLOR_DRAFT") 1),
          poolPick (if (0.8 : ℚ) > 0.6 then lightPool else darkPool)
            (constZeroStream ("S" ++ "_COLOR_DRAFT") 2),
          poolPick (if (0.7 : ℚ) > 0.5 then vibrantPool else lightPool)
            (constZeroStream ("S" ++ "_COLOR_DRAFT") 3),
          poolPick (if (0.7 : ℚ) > 0.5 then vibrantPool else darkPool)
            (constZeroStream ("S" ++ "_COLOR_DRAFT") 4)].map hexToRgb) :=
  draftColors_selection_order constZeroStream 0.8 0.5 0.7 "S"
    (fun _ => ⟨le_rfl, zero_lt_one⟩)

/-- Every channel produced by `hexToRgb` is masked with 255, hence at
most 255. -/
theorem hexToRgb_channels_le (hex : String) :
    (hexToRgb hex).1 ≤ 255 ∧ (hexToRgb hex).2.1 ≤ 255 ∧
      (hexToRgb hex).2.2 ≤ 255 := by
  unfold hexToRgb
  exact ⟨Nat.and_le_right, Nat.and_le_right, Nat.and_le_right⟩

/-- C6: for every input signal value and seed, and any PRNG whose draws
lie in `[0,1)` (so that every pool indexing is in bounds), `draftColors`
returns exactly 5 RGB triples with every channel in [0,255]. -/
theorem draftColors_palette_shape (seedrandom : String → ℕ → ℚ)
    (season sentiment entropy : ℚ) (seedStr : String)
    (h : ∀ k, 0 ≤ seedrandom (seedStr ++ "_COLOR_DRAFT") k ∧
      seedrandom (seedStr ++ "_COLOR_DRAFT") k < 1) :
    ∃ p, draftColors seedrandom season sentiment entropy seedStr = some p ∧
      p.length = 5 ∧
      ∀ c ∈ p, c.1 ≤ 255 ∧ c.2.1 ≤ 255 ∧ c.2.2 ≤ 255 := by
  refine ⟨_, draftColors_normal_form seedrandom season sentiment entropy seedStr h,
    by simp, ?_⟩
  intro c hc
  simp only [List.mem_map] at hc
  obtain ⟨hex, _, rfl⟩ := hc
  exact hexToRgb_channels_le hex

/-- C6 witness at the constant-zero stream and the boundary signal values
`season = 0.6`, `entropy = 0.5`. -/
theorem draftColors_palette_shape_witness :
    ∃ p, draftColors constZeroStream 0.6 0 0.5 "S" = some p ∧
      p.length = 5 ∧
      ∀ c ∈ p, c.1 ≤ 255 ∧ c.2.1 ≤ 255 ∧ c.2.2 ≤ 255 :=
  draftColors_palette_shape constZeroStream 0.6 0 0.5 "S"
    (fun _ => ⟨le_rfl, zero_lt_one⟩)

/-- The clamped byte store never exceeds 255. -/
theorem clampByte_le (q : ℚ) : clampByte q ≤ 255 := by
  unfold clampByte
  split_ifs with h0 h255
  · exact Nat.zero_le _
  · exact le_rfl
  · have hq : q < 255 := lt_of_not_le h255
    have hf : ⌊q⌋ < 255 := by
      have := Int.floor_lt.mpr (show q < ((255 : ℤ) : ℚ) by exact_mod_cast hq)
      exact this
    unfold roundHalfEven
    dsimp only
    split_ifs <;> omega

/-- The scenario record of the specification, used to instantiate
concrete inputs. -/
def sampleParams : WorldParameters :=
  { timestamp := "2025-01-01T00:00:00Z", p_season := 0.8, p_sentiment := 0.5,
    p_entropy := 0.7, p_humanity := 0.5, p_atmosphere := 0.5 }

/-- C10: each RGB channel is computed unclamped as `palette + grain*30`
but stored through the `Uint8ClampedArray` semantics `clampByte`, so
every stored byte of a pixel (and of the whole raster) lies in [0,255],
the alpha byte is exactly 255, and out-of-range values saturate (300
stores as 255, -10 as 0 — never a wrap to 300 mod 256 = 44). -/
theorem pixel_store_clamped (noise : ℚ → ℚ → ℚ) (stream : ℕ → ℚ)
    (data : WorldParameters) (colors : List (ℕ × ℕ × ℕ)) (W H x y : ℕ) :
    (∀ b ∈ pixelQuad noise stream data colors W x y, b ≤ 255) ∧
    (pixelQuad noise stream data colors W x y).length = 4 ∧
    (pixelQuad noise stream data colors W x y).getLast? = some 255 ∧
    (∀ b ∈ synthesizeRaster noise stream data colors W H, b ≤ 255) ∧
    (∀ q : ℚ, 255 ≤ q → clampByte q = 255) ∧
    (∀ q : ℚ, q ≤ 0 → clampByte q = 0) ∧
    clampByte 300 = 255 ∧ clampByte (-10) = 0 := by
  have hquad : ∀ x1 y1 : ℕ, ∀ b ∈ pixelQuad noise stream data colors W x1 y1,
      b ≤ 255 := by
    intro x1 y1 b hb
    simp only [pixelQuad, List.mem_cons, List.not_mem_nil, or_false] at hb
    rcases hb with rfl | rfl | rfl | rfl
    · exact clampByte_le _
    · exact clampByte_le _
    · exact clampByte_le _
    · exact le_rfl
  refine ⟨hquad x y, by simp [pixelQuad], by simp [pixelQuad], ?_, ?_, ?_, ?_, ?_⟩
  · intro b hb
    simp only [synthesizeRaster, renderRow, List.mem_flatMap] at hb
    obtain ⟨y1, _, x1, _, hb⟩ := hb
    exact hquad x1 y1 b hb
  · intro q hq
    unfold clampByte
    split_ifs <;> first | rfl | linarith
  · intro q hq
    unfold clampByte
    split_ifs <;> first | rfl | linarith
  · norm_num [clampByte]
  · norm_num [clampByte]

/-- C10 witness: the saturation conjuncts and byte bounds applied at
concrete inputs (alpha byte 255 of the sample pixel, stores of 300 and
-10). -/
theorem pixel_store_clamped_witness :
    (255 : ℕ) ≤ 255 ∧ clampByte 300 = 255 ∧ clampByte (-10) = 0 :=
  ⟨(pixel_store_clamped zeroNoise (constZeroStream "") sampleParams [] 1 1 0
      0).1 255 (by simp [pixelQuad]),
    (pixel_store_clamped zeroNoise (constZeroStream "") sampleParams [] 1 1 0
      0).2.2.2.2.1 300 (by norm_num),
    (pixel_store_clamped zeroNoise (constZeroStream "") sampleParams [] 1 1 0
      0).2.2.2.2.2.1 (-10) (by norm_num)⟩

/-- JavaScript Number as it arises when the input record may be missing
fields: either an ordinary (rational) value or NaN, the result of any
arithmetic touching `undefined`. -/
inductive JNum where
  | nan : JNum
  | num : ℚ → JNum
deriving DecidableEq

/-- JS addition; NaN propagates. -/
def JNum.add : JNum → JNum → JNum
  | num a, num b => num (a + b)
  | _, _ => nan

/-- JS multiplication; NaN propagates. -/
def JNum.mul : JNum → JNum → JNum
  | num a, num b => num (a * b)
  | _, _ => nan

/-- JS subtraction; NaN propagates. -/
def JNum.sub : JNum → JNum → JNum
  | num a, num b => num (a - b)
  | _, _ => nan

/-- JS division (only ever used with a nonzero literal divisor here);
NaN propagates. -/
def JNum.div : JNum → JNum → JNum
  | num a, num b => num (a / b)
  | _, _ => nan

/-- JS `<`: every comparison involving NaN is false. -/
def JNum.ltb : JNum → JNum → Bool
  | num a, num b => decide (a < b)
  | _, _ => false

/-- Reading a possibly-missing numeric field of the JSON record: a
missing field is `undefined`, which numeric use turns into NaN. -/
def jfield : Option ℚ → JNum
  | some q => JNum.num q
  | none => JNum.nan

/-- `data.timestamp` in string position: JS stringifies a missing field
as `"undefined"`, so the seed string still forms. -/
def timestampText : Option String → String
  | some s => s
  | none => "undefined"

/-- The raw JSON record as `generateArt` actually receives it: any field
may be absent. -/
structure RawRecord where
  timestamp : Option String
  p_season : Option ℚ
  p_sentiment : Option ℚ
  p_entropy : Option ℚ
  p_humanity : Option ℚ
  p_atmosphere : Option ℚ

/-- `zoom` computed on the raw record (src/script.js line 124). -/
def zoomJ (rec : RawRecord) : JNum :=
  (JNum.num 0.002).add ((jfield rec.p_humanity).mul (JNum.num 0.002))

/-- `distortion` computed on the raw record (src/script.js line 125). -/
def distortionJ (rec : RawRecord) : JNum :=
  (JNum.num 100).add ((jfield rec.p_entropy).mul (JNum.num 200))

/-- `grainAmount` computed on the raw record (src/script.js line 136). -/
def grainAmountJ (rec : RawRecord) : JNum :=
  (JNum.num 0.1).add ((jfield rec.p_atmosphere).mul (JNum.num 0.1))

/-- `grain` on the raw record; the PRNG draw itself is always a number. -/
def grainJ (u : ℚ) (gA : JNum) : JNum :=
  ((JNum.num u).sub (JNum.num 0.5)).mul gA

/-- The warped-noise scalar with JS NaN semantics (src/script.js
lines 130-134). -/
def pixelValueJ (noise : JNum → JNum → JNum) (z dist x y : JNum) : JNum :=
  let xWarp := noise (x.mul z) (y.mul z)
  let yWarp := noise ((x.add (JNum.num 1000)).mul z) ((y.add (JNum.num 1000)).mul z)
  let finalX := x.add (xWarp.mul dist)
  let finalY := y.add (yWarp.mul dist)
  ((noise (finalX.mul z) (finalY.mul z)).add (JNum.num 1)).div (JNum.num 2)

/-- The threshold quantization with JS comparison semantics: a NaN
dithered value fails every `<` test and lands in bucket 4. -/
def quantizeJ (d : JNum) : ℤ :=
  if d.ltb (JNum.num 0.30) then 0
  else if d.ltb (JNum.num 0.50) then 1
  else if d.ltb (JNum.num 0.70) then 2
  else if d.ltb (JNum.num 0.85) then 3
  else 4

/-- `Uint8ClampedArray` store of a JS Number: NaN stores as 0. -/
def clampByteJ : JNum → ℕ
  | JNum.nan => 0
  | JNum.num q => clampByte q

/-- `draftColors` on the raw record: the season/entropy comparisons use
JS semantics (false on NaN), everything else is as in `draftColors`. -/
def draftColorsJ (seedrandom : String → ℕ → ℚ)
    (season _sentiment entropy : JNum) (seedStr : String) :
    Option (List (ℕ × ℕ × ℕ)) :=
  let rng := seedrandom (seedStr ++ "_COLOR_DRAFT")
  let pick := fun (arr : List String) (k : ℕ) =>
    (pickFrom arr (rng k)).map (fun c => (c, k + 1))
  do
    let (c0, k0) ← if (JNum.num 0.6).ltb season then pick darkPool 0 else pick lightPool 0
    let (c1, k1) ← pick vibrantPool k0
    let (c2, k2) ← if (JNum.num 0.6).ltb season then pick lightPool k1 else pick darkPool k1
    let (c3, k3) ← if (JNum.num 0.5).ltb entropy then pick vibrantPool k2 else pick lightPool k2
    let (c4, _k4) ← if (JNum.num 0.5).ltb entropy then pick vibrantPool k3 else pick darkPool k3
    pure ([c0, c1, c2, c3, c4].map hexToRgb)

/-- One pixel of the synthesis loop on the raw record. -/
def pixelQuadJ (noise : JNum → JNum → JNum) (stream : ℕ → ℚ)
    (rec : RawRecord) (colors : List (ℕ × ℕ × ℕ)) (W x y : ℕ) : List ℕ :=
  let value := pixelValueJ noise (zoomJ rec) (distortionJ rec)
    (JNum.num x) (JNum.num y)
  let g := grainJ (stream (y * W + x)) (grainAmountJ rec)
  let ditheredValue := value.add g
  let colIndex := clampIndex (quantizeJ ditheredValue)
  let rgb := colors.getD colIndex.toNat (0, 0, 0)
  [clampByteJ ((JNum.num rgb.1).add (g.mul (JNum.num 30))),
    clampByteJ ((JNum.num rgb.2.1).add (g.mul (JNum.num 30))),
    clampByteJ ((JNum.num rgb.2.2).add (g.mul (JNum.num 30))), 255]

/-- One row of the synthesis loop on the raw record. -/
def renderRowJ (noise : JNum → JNum → JNum) (stream : ℕ → ℚ)
    (rec : RawRecord) (colors : List (ℕ × ℕ × ℕ)) (W y : ℕ) : List ℕ :=
  (List.range W).flatMap (fun x => pixelQuadJ noise stream rec colors W x y)

/-- The full pixel loop on the raw record. -/
def synthesizeRasterJ (noise : JNum → JNum → JNum) (stream : ℕ → ℚ)
    (rec : RawRecord) (colors : List (ℕ × ℕ × ℕ)) (W H : ℕ) : List ℕ :=
  (List.range H).flatMap (renderRowJ noise stream rec colors W)

/-- `generateArt` on the raw record: exactly the code path of
src/script.js lines 108-163, with no validation anywhere — missing fields
flow through as NaN. -/
def generateArtRaw (seedrandom : String → ℕ → ℚ)
    (simplexNoiseOfJ : (ℕ → ℚ) → JNum → JNum → JNum) (simplexInitDraws : ℕ)
    (rec : RawRecord) (W H : ℕ) : Option (List ℕ) :=
  let seedStr := timestampText rec.timestamp ++ "_RETRO_V7"
  let myRNG := seedrandom seedStr
  let simplex := simplexNoiseOfJ myRNG
  let pixelStream := fun k => myRNG (simplexInitDraws + k)
  (draftColorsJ seedrandom (jfield rec.p_season) (jfield rec.p_sentiment)
      (jfield rec.p_entropy) seedStr).map
    (fun colors => synthesizeRasterJ simplex pixelStream rec colors W H)

/-- `draftColorsJ` succeeds for any signal values — NaN included — as
long as the PRNG draws stay in `[0,1)`. -/
theorem draftColorsJ_isSome (seedrandom : String → ℕ → ℚ)
    (season sentiment entropy : JNum) (seedStr : String)
    (h : ∀ k, 0 ≤ seedrandom (seedStr ++ "_COLOR_DRAFT") k ∧
      seedrandom (seedStr ++ "_COLOR_DRAFT") k < 1) :
    ∃ p, draftColorsJ seedrandom season sentiment entropy seedStr = some p := by
  have hp : ∀ (arr : List String), arr ≠ [] → ∀ k,
      pickFrom arr (seedrandom (seedStr ++ "_COLOR_DRAFT") k) =
        some (poolPick arr (seedrandom (seedStr ++ "_COLOR_DRAFT") k)) :=
    fun arr hne k => pickFrom_of_unit arr _ hne (h k).1 (h k).2
  have hd : darkPool ≠ [] := List.cons_ne_nil _ _
  have hv : vibrantPool ≠ [] := List.cons_ne_nil _ _
  have hl : lightPool ≠ [] := List.cons_ne_nil _ _
  unfold draftColorsJ
  by_cases hs : ((JNum.num 0.6).ltb season) = true <;>
  by_cases he : ((JNum.num 0.5).ltb entropy) = true <;>
    simp [hs, he, hp darkPool hd, hp vibrantPool hv, hp lightPool hl]

/-- A flatMap whose pieces all have length `n` has length
`n * (number of pieces)`. -/
theorem length_flatMap_const {α : Type} (l : List α) (f : α → List ℕ) (n : ℕ)
    (hf : ∀ a, (f a).length = n) : (l.flatMap f).length = l.length * n := by
  induction l with
  | nil => simp
  | cons a t ih =>
      simp only [List.flatMap_cons, List.length_append, hf a, ih,
        List.length_cons]
      ring

/-- Every row of the raw-record pixel loop has `W * 4` bytes. -/
theorem renderRowJ_length (noise : JNum → JNum → JNum) (stream : ℕ → ℚ)
    (rec : RawRecord) (colors : List (ℕ × ℕ × ℕ)) (W y : ℕ) :
    (renderRowJ noise stream rec colors W y).length = W * 4 := by
  unfold renderRowJ
  rw [length_flatMap_const _ _ 4 (fun x => by simp [pixelQuadJ])]
  simp

/-- The raw-record raster always has `W * H * 4` bytes. -/
theorem synthesizeRasterJ_length (noise : JNum → JNum → JNum) (stream : ℕ → ℚ)
    (rec : RawRecord) (colors : List (ℕ × ℕ × ℕ)) (W H : ℕ) :
    (synthesizeRasterJ noise stream rec colors W H).length = W * H * 4 := by
  unfold synthesizeRasterJ
  rw [length_flatMap_const _ _ (W * 4)
    (fun y => renderRowJ_length noise stream rec colors W y)]
  simp only [List.length_range]
  ring

/-- The raw record of the spec scenario with `p_humanity` absent:
out-of-contract input on which the claim expects a validation failure. -/
def missingHumanityRecord : RawRecord :=
  { timestamp := some "2025-01-01T00:00:00Z", p_season := some 0.8,
    p_sentiment := some 0.5, p_entropy := some 0.7, p_humanity := none,
    p_atmosphere := some 0.5 }

/-- C9 evidence: the code performs no input validation.  On the record
with a missing `p_humanity` (so `zoom` is NaN), `generateArt` does not
fail — for every simplex field, constructor draw count, dimensions and
PRNG with unit-interval draws, it still produces a complete raster of
exactly `W*H*4` bytes. -/
theorem generateArtRaw_no_validation (seedrandom : String → ℕ → ℚ)
    (simplexNoiseOfJ : (ℕ → ℚ) → JNum → JNum → JNum) (simplexInitDraws W H : ℕ)
    (h : ∀ s k, 0 ≤ seedrandom s k ∧ seedrandom s k < 1) :
    (generateArtRaw seedrandom simplexNoiseOfJ simplexInitDraws
        missingHumanityRecord W H).map List.length = some (W * H * 4) := by
  obtain ⟨p, hp⟩ := draftColorsJ_isSome seedrandom
    (jfield missingHumanityRecord.p_season)
    (jfield missingHumanityRecord.p_sentiment)
    (jfield missingHumanityRecord.p_entropy)
    (timestampText missingHumanityRecord.timestamp ++ "_RETRO_V7")
    (fun k => h _ k)
  unfold generateArtRaw
  dsimp only
  rw [hp]
  simp only [Option.map_some']
  congr 1
  exact synthesizeRasterJ_length _ _ _ _ _ _

/-- A simplex field that is NaN everywhere, instantiating the abstract
noise library on concrete inputs. -/
def nanNoiseOf : (ℕ → ℚ) → JNum → JNum → JNum := fun _ _ _ => JNum.nan

/-- C9 witness: at the constant-zero PRNG and the NaN field, the
malformed record still yields a complete 2×2 raster of 16 bytes. -/
theorem generateArtRaw_no_validation_witness :
    (generateArtRaw constZeroStream nanNoiseOf 0 missingHumanityRecord
        2 2).map List.length = some (2 * 2 * 4) :=
  generateArtRaw_no_validation constZeroStream nanNoiseOf 0 2 2
    (fun _ _ => ⟨le_rfl, zero_lt_one⟩)

end WorldStateArt
